import Mathlib

/-!
Cedar H264 encoder element (`src/gstcedarh264enc.c`).

A shallow embedding of the GStreamer element `cedar_h264enc`:

* the property accessors `gst_cedarh264enc_set_property` / `gst_cedarh264enc_get_property`,
* the negotiation function `gst_cedarh264enc_set_caps`,
* the data path `gst_cedarh264enc_chain`,
* the lifecycle function `gst_cedarh264enc_change_state`.

The C functions act on the element instance, on the hardware driver and on the
neighbouring pads.  Here they are pure functions over a `World`: the element
instance (`filter`), the driver-side resources (`hw`) and the ordered list of
every call made to an external collaborator (`trace`).  What an external
collaborator answers is read from an `Env` record, so every theorem holds for
all possible answers.
-/

namespace Cedar

/-! ## Framework types -/

/-- The transitions of `GstStateChange`; the four same-state values take the
`default:` branches of both `switch` statements, like every value that is not
named in the source. -/
inductive GstStateChange where
  | NULL_TO_READY
  | READY_TO_PAUSED
  | PAUSED_TO_PLAYING
  | PLAYING_TO_PAUSED
  | PAUSED_TO_READY
  | READY_TO_NULL
  | NULL_TO_NULL
  | READY_TO_READY
  | PAUSED_TO_PAUSED
  | PLAYING_TO_PLAYING
  deriving DecidableEq, Repr

/-- The values of `GstStateChangeReturn`. -/
inductive GstStateChangeReturn where
  | FAILURE
  | SUCCESS
  | ASYNC
  | NO_PREROLL
  deriving DecidableEq, Repr

/-- The values of `GstFlowReturn` a pad push can report. -/
inductive GstFlowReturn where
  | OK
  | NOT_LINKED
  | FLUSHING
  | EOS
  | NOT_NEGOTIATED
  | ERROR
  | NOT_SUPPORTED
  deriving DecidableEq, Repr

/-- The two pads of the element (`filter->sinkpad`, `filter->srcpad`). -/
inductive Pad where
  | sink
  | src
  deriving DecidableEq, Repr

/-- The constant `GST_CLOCK_TIME_NONE`, the timestamp of a buffer made by `gst_buffer_new`. -/
def GST_CLOCK_TIME_NONE : Nat := 2 ^ 64 - 1

/-- A `GstBuffer`: its timestamp, its bytes, and whether `gst_buffer_map`
for reading succeeds on it. -/
structure GstBuffer where
  timestamp : Nat
  data : List Nat
  readable : Bool
  deriving DecidableEq, Repr

/-- The call `gst_buffer_map (buf, &info, GST_MAP_READ)`: `none` when the call returns
FALSE, otherwise `info.data` (whose length is `info.size`). -/
def gst_buffer_map (buf : GstBuffer) : Option (List Nat) :=
  if buf.readable then some buf.data else none

/-- The call `gst_buffer_new ()`: an empty buffer. -/
def gst_buffer_new : GstBuffer :=
  { timestamp := GST_CLOCK_TIME_NONE, data := [], readable := true }

/-- The call `gst_buffer_new_and_alloc (size)`: a buffer of `size` bytes. -/
def gst_buffer_new_and_alloc (size : Nat) : GstBuffer :=
  { timestamp := GST_CLOCK_TIME_NONE, data := List.replicate size 0, readable := true }

/-- The call `gst_buffer_fill (buffer, offset, src, size)`: copies at most `size` bytes
from the memory `src` into `buffer` starting at `offset`, never past the end of
the buffer. -/
def gst_buffer_fill (buffer : GstBuffer) (offset : Nat) (src : Nat → Nat) (size : Nat) :
    GstBuffer :=
  let n := min size (buffer.data.length - offset)
  { buffer with
    data := buffer.data.take offset ++ (List.range n).map src ++ buffer.data.drop (offset + n) }

/-- A field value of a capability structure. -/
inductive GValue where
  | int (v : Int)
  | string (s : String)
  | fraction (num den : Int)
  | list (alternatives : List String)
  deriving DecidableEq, Repr

/-- A `GstCaps` with one structure: the media type and its fields in order. -/
structure GstCaps where
  media_type : String
  fields : List (String × GValue)
  deriving DecidableEq, Repr

/-- Setting one field of a structure (`gst_structure_set`): an existing field
keeps its place and takes the new value, a new field is appended. -/
def set_field : List (String × GValue) → String → GValue → List (String × GValue)
  | [], name, v => [(name, v)]
  | (k, old) :: rest, name, v =>
    if k = name then (k, v) :: rest else (k, old) :: set_field rest name v

/-- One `name, type, value` triple of `gst_caps_set_simple`. -/
def gst_caps_set_simple (caps : GstCaps) (name : String) (v : GValue) : GstCaps :=
  { caps with fields := set_field caps.fields name v }

/-- The sink-side capability description handed to `set_caps`: a raw video
description with its format, geometry and framerate. -/
structure VideoCaps where
  format : String
  width : Int
  height : Int
  fps_n : Int
  fps_d : Int
  deriving DecidableEq, Repr

/-- The fields of `GstVideoInfo` the element reads. -/
structure GstVideoInfo where
  width : Int
  height : Int
  fps_n : Int
  fps_d : Int
  deriving DecidableEq, Repr

/-- The call `gst_video_info_from_caps (&vinfo, caps)`: the framework routine that reads
the geometry and framerate of a raw video description. -/
def gst_video_info_from_caps (caps : VideoCaps) : GstVideoInfo :=
  { width := caps.width, height := caps.height, fps_n := caps.fps_n, fps_d := caps.fps_d }

/-- The caps of `sink_factory` (lines 74-84): `video/x-raw`, format NV12,
width in [16,1920], height in [16,1080]; whether a description is inside them. -/
def sink_factory_accepts (caps : VideoCaps) : Bool :=
  caps.format == "NV12" && decide (16 ≤ caps.width) && decide (caps.width ≤ 1920)
    && decide (16 ≤ caps.height) && decide (caps.height ≤ 1080)

/-- The caps of `src_factory` (lines 86-95). -/
def src_factory : GstCaps :=
  { media_type := "video/x-h264",
    fields := [("stream-format", GValue.string "byte-stream"),
               ("alignment", GValue.string "nal"),
               ("profile", GValue.list ["main"])] }

/-! ## Driver types -/

/-- Modelled from the spec: the source pixel formats of `h264enc.h`, a header
that is not among the sources; `H264_FMT_NV12` is the one the element uses. -/
inductive h264enc_color_format where
  | H264_FMT_NV12
  | H264_FMT_NV16
  deriving DecidableEq, Repr

/-- Modelled from the spec: the entropy coding modes of `h264enc.h`, a header
that is not among the sources; `H264_EC_CABAC` is the one the element uses. -/
inductive h264enc_entropy_coding_mode where
  | H264_EC_CAVLC
  | H264_EC_CABAC
  deriving DecidableEq, Repr

/-- The `struct h264enc_params` filled in by `change_state` (lines 310-319).
The struct is declared in `h264enc.h`, which is not among the sources; its
fields are taken to hold the assigned values unchanged. -/
structure h264enc_params where
  width : Int
  height : Int
  src_width : Int
  src_height : Int
  src_format : h264enc_color_format
  profile_idc : Int
  level_idc : Int
  entropy_coding_mode : h264enc_entropy_coding_mode
  qp : Int
  keyframe_interval : Int
  deriving DecidableEq, Repr

/-- Modelled from the spec: the resources behind the hardware driver interface
(`ve.h`, `h264enc.h`, not among the sources): whether the engine reservation is
held, and the live encoder sessions, each with its handle and the configuration
it was created with. -/
structure Hw where
  ve_opened : Bool
  sessions : List (Nat × h264enc_params)
  deriving DecidableEq, Repr

/-- Modelled from the spec: `ve_open` (`open_engine() -> bool`) reserves the
engine when it reports success. -/
def Hw.ve_open (hw : Hw) (ret : Int) : Hw :=
  if ret = 0 then hw else { hw with ve_opened := true }

/-- Modelled from the spec: `ve_close` (`close_engine()`) releases the engine. -/
def Hw.ve_close (hw : Hw) : Hw :=
  { hw with ve_opened := false }

/-- Modelled from the spec: `h264enc_new` (`create_encoder(config) -> handle|null`)
creates a session for `p` under the handle it returns, unless it returns null. -/
def Hw.h264enc_new (hw : Hw) (p : h264enc_params) (ret : Nat) : Hw :=
  if ret = 0 then hw else { hw with sessions := (ret, p) :: hw.sessions }

/-- Modelled from the spec: `h264enc_free` (`destroy_encoder(handle)`) destroys
the session of that handle. -/
def Hw.h264enc_free (hw : Hw) (enc : Nat) : Hw :=
  { hw with sessions := hw.sessions.filter (fun s => decide (s.1 ≠ enc)) }

/-! ## The element instance and the world -/

/-- The instance fields of `GstCedarH264Enc` the functions use (the struct is
declared in `gstcedarh264enc.h`, which is not among the sources); `enc` is the
pointer `filter->enc`, with 0 for NULL. -/
structure GstCedarH264Enc where
  width : Int
  height : Int
  enc : Nat
  pic_init_qp : Int
  keyframe_interval : Int
  deriving DecidableEq, Repr

/-- Every call the element makes to an external collaborator, with its
arguments and, where the code reads it, its result. -/
inductive Event where
  | ve_open (ret : Int)
  | ve_close
  | h264enc_new (p : h264enc_params) (ret : Nat)
  | h264enc_free (enc : Nat)
  | h264enc_get_input_buffer (enc : Nat)
  | memcpy_input (enc : Nat) (data : List Nat)
  | h264enc_encode_picture (enc : Nat) (ret : Int)
  | h264enc_get_bytestream_length (enc : Nat) (ret : Nat)
  | h264enc_get_bytestream_buffer (enc : Nat)
  | parent_change_state (transition : GstStateChange) (ret : GstStateChangeReturn)
  | gst_buffer_map (buf : GstBuffer) (ret : Bool)
  | gst_buffer_unmap (buf : GstBuffer)
  | gst_buffer_unref (buf : GstBuffer)
  | gst_pad_push (pad : Pad) (outbuf : GstBuffer) (ret : GstFlowReturn)
  | gst_pad_set_caps (pad : Pad) (caps : GstCaps) (ret : Bool)
  | gst_pad_set_caps_raw (pad : Pad) (caps : VideoCaps) (ret : Bool)
  | gst_pad_event_default (pad : Pad) (ret : Bool)
  | warn_invalid_property_id (prop_id : Nat)
  deriving DecidableEq, Repr

/-- The element instance, the driver resources and the calls made so far. -/
structure World where
  filter : GstCedarH264Enc
  hw : Hw
  trace : List Event
  deriving DecidableEq, Repr

/-- Appends one call to the trace. -/
def World.log (w : World) (ev : Event) : World :=
  { w with trace := w.trace ++ [ev] }

/-- The answers of the external collaborators. -/
structure Env where
  ve_open : Int
  h264enc_new : h264enc_params → Nat
  h264enc_encode_picture : Int
  h264enc_get_bytestream_length : Nat
  h264enc_get_bytestream_buffer : Nat → Nat
  parent_change_state : GstStateChange → GstStateChangeReturn
  gst_pad_push : Pad → GstBuffer → GstFlowReturn
  gst_pad_set_caps : Pad → GstCaps → Bool
  gst_pad_set_caps_raw : Pad → VideoCaps → Bool
  gst_pad_event_default : Pad → Bool

/-! ## Properties (lines 63-68, 129-135, 160-212) -/

/-- The property identifiers of the anonymous `enum` (lines 63-68). -/
def PROP_0 : Nat := 0
/-- Identifier of the quantization parameter property. -/
def PROP_QP : Nat := 1
/-- Identifier of the keyframe interval property. -/
def PROP_KEYFRAME_INTERVAL : Nat := 2

/-- A `g_param_spec_int`: minimum, maximum and default. -/
structure GParamSpecInt where
  minimum : Int
  maximum : Int
  default_value : Int
  deriving DecidableEq, Repr

/-- The spec installed for `"qp"` by `class_init` (lines 129-131). -/
def qp_pspec : GParamSpecInt := { minimum := 0, maximum := 47, default_value := 30 }

/-- The spec installed for `"keyint"` by `class_init` (lines 133-135). -/
def keyint_pspec : GParamSpecInt := { minimum := 1, maximum := 500, default_value := 30 }

/-- The property defaults written by `gst_cedarh264enc_init` (lines 172-173);
the other instance fields are zero-initialised by the object system. -/
def gst_cedarh264enc_init : GstCedarH264Enc :=
  { width := 0, height := 0, enc := 0, pic_init_qp := 30, keyframe_interval := 30 }

/-- The function `gst_cedarh264enc_set_property` (lines 176-193); `value` is
`g_value_get_int (value)`. -/
def gst_cedarh264enc_set_property (w : World) (prop_id : Nat) (value : Int) : World :=
  if prop_id = PROP_QP then
    { w with filter := { w.filter with pic_init_qp := value } }
  else if prop_id = PROP_KEYFRAME_INTERVAL then
    { w with filter := { w.filter with keyframe_interval := value } }
  else
    w.log (Event.warn_invalid_property_id prop_id)

/-- The function `gst_cedarh264enc_get_property` (lines 195-212): the content of `value`
after the call, given its content before, and the world after the call. -/
def gst_cedarh264enc_get_property (w : World) (prop_id : Nat) (value : Int) : Int × World :=
  if prop_id = PROP_QP then
    (w.filter.pic_init_qp, w)
  else if prop_id = PROP_KEYFRAME_INTERVAL then
    (w.filter.keyframe_interval, w)
  else
    (value, w.log (Event.warn_invalid_property_id prop_id))

/-- The parameter spec `class_init` installs under a property identifier
(lines 129-135), if any. -/
def installed_pspec (prop_id : Nat) : Option GParamSpecInt :=
  if prop_id = PROP_QP then some qp_pspec
  else if prop_id = PROP_KEYFRAME_INTERVAL then some keyint_pspec
  else none

/-- Modelled from the spec: the property-system boundary, an external
collaborator through which every property set reaches the element (the setter
is only installed as `gobject_class->set_property`, line 124).  It looks up the
parameter spec installed by `class_init`; a value outside the range of that
spec is rejected, the setter is not called and the element keeps its value; a
value inside the range is handed to `gst_cedarh264enc_set_property`; an
identifier without a spec never reaches the setter. -/
def g_object_set_property (w : World) (prop_id : Nat) (value : Int) : World :=
  match installed_pspec prop_id with
  | none => w
  | some pspec =>
    if pspec.minimum ≤ value ∧ value ≤ pspec.maximum then
      gst_cedarh264enc_set_property w prop_id value
    else
      w

/-- Runs a list of property sets through the property system, in order. -/
def apply_property_sets (w : World) : List (Nat × Int) → World
  | [] => w
  | (prop_id, value) :: rest => apply_property_sets (g_object_set_property w prop_id value) rest

/-! ## Negotiation (lines 138-153, 217-253) -/

/-- The caps built on the sink branch (lines 237-242). -/
def othercaps (filter : GstCedarH264Enc) (fps_num fps_den : Int) : GstCaps :=
  let c := src_factory
  let c := gst_caps_set_simple c "width" (GValue.int filter.width)
  let c := gst_caps_set_simple c "height" (GValue.int filter.height)
  let c := gst_caps_set_simple c "framerate" (GValue.fraction fps_num fps_den)
  gst_caps_set_simple c "profile" (GValue.string "main")

/-- The function `gst_cedarh264enc_set_caps` (lines 217-253). -/
def gst_cedarh264enc_set_caps (e : Env) (w : World) (pad : Pad) (caps : VideoCaps) :
    Bool × World :=
  let otherpad := if pad = Pad.src then Pad.sink else Pad.src
  if pad = Pad.sink then
    let vinfo := gst_video_info_from_caps caps
    let w := { w with filter := { w.filter with width := vinfo.width, height := vinfo.height } }
    let fps_num := vinfo.fps_n
    let fps_den := vinfo.fps_d
    let oc := othercaps w.filter fps_num fps_den
    let ret := e.gst_pad_set_caps otherpad oc
    (ret, w.log (Event.gst_pad_set_caps otherpad oc ret))
  else
    let ret := e.gst_pad_set_caps_raw otherpad caps
    (ret, w.log (Event.gst_pad_set_caps_raw otherpad caps ret))

/-- The events the sink pad can receive: the CAPS event with the description it
carries (`gst_event_parse_caps`), or any other event. -/
inductive GstEvent where
  | caps (c : VideoCaps)
  | other
  deriving DecidableEq, Repr

/-- The function `gst_cedarh264enc_sink_event` (lines 138-153), the event
function of the sink pad and the only caller of `gst_cedarh264enc_set_caps`. -/
def gst_cedarh264enc_sink_event (e : Env) (w : World) (pad : Pad) (event : GstEvent) :
    Bool × World :=
  match event with
  | GstEvent.caps c => gst_cedarh264enc_set_caps e w pad c
  | GstEvent.other =>
    let ret := e.gst_pad_event_default pad
    (ret, w.log (Event.gst_pad_event_default pad ret))

/-- Modelled from the spec: delivery of a CAPS event to the sink pad by the
pad infrastructure, an external collaborator.  The sink pad is built from
`sink_factory` (line 162) and its event function is installed on it (line
163); a description outside the caps of that template is refused before the
event function runs, and the sender is told the event failed; a description
inside them is handed to `gst_cedarh264enc_sink_event`. -/
def gst_pad_send_caps_event (e : Env) (w : World) (caps : VideoCaps) : Bool × World :=
  if sink_factory_accepts caps then
    gst_cedarh264enc_sink_event e w Pad.sink (GstEvent.caps caps)
  else
    (false, w)

/-! ## Data path (lines 258-293) -/

/-- The function `gst_cedarh264enc_chain` (lines 258-293). -/
def gst_cedarh264enc_chain (e : Env) (w : World) (buf : GstBuffer) : GstFlowReturn × World :=
  match gst_buffer_map buf with
  | none =>
    let w := w.log (Event.gst_buffer_map buf false)
    let outbuf := gst_buffer_new
    let outbuf := { outbuf with timestamp := buf.timestamp }
    let ret := e.gst_pad_push Pad.src outbuf
    (ret, w.log (Event.gst_pad_push Pad.src outbuf ret))
  | some info =>
    let w := w.log (Event.gst_buffer_map buf true)
    let w := w.log (Event.h264enc_get_input_buffer w.filter.enc)
    let w := w.log (Event.memcpy_input w.filter.enc info)
    let w := w.log (Event.h264enc_encode_picture w.filter.enc e.h264enc_encode_picture)
    if e.h264enc_encode_picture ≠ 0 then
      let output_buf_num_bytes := e.h264enc_get_bytestream_length
      let w := w.log (Event.h264enc_get_bytestream_length w.filter.enc output_buf_num_bytes)
      let outbuf := gst_buffer_new_and_alloc output_buf_num_bytes
      let w := w.log (Event.h264enc_get_bytestream_buffer w.filter.enc)
      let outbuf := gst_buffer_fill outbuf 0 e.h264enc_get_bytestream_buffer output_buf_num_bytes
      let outbuf := { outbuf with timestamp := buf.timestamp }
      let w := w.log (Event.gst_buffer_unmap buf)
      let w := w.log (Event.gst_buffer_unref buf)
      let ret := e.gst_pad_push Pad.src outbuf
      (ret, w.log (Event.gst_pad_push Pad.src outbuf ret))
    else
      (GstFlowReturn.ERROR, w)

/-- How often `buf` has been released (`gst_buffer_unref`) in a trace. -/
def release_count (trace : List Event) (buf : GstBuffer) : Nat :=
  trace.count (Event.gst_buffer_unref buf)

/-- The buffers pushed downstream in a trace, in order. -/
def pushed : List Event → List GstBuffer
  | [] => []
  | Event.gst_pad_push _ outbuf _ :: rest => outbuf :: pushed rest
  | _ :: rest => pushed rest

/-- Whether a call goes to the hardware driver (`ve_*`, `h264enc_*`, or a write
into the encoder input slot). -/
def is_driver_call : Event → Bool
  | Event.ve_open _ => true
  | Event.ve_close => true
  | Event.h264enc_new _ _ => true
  | Event.h264enc_free _ => true
  | Event.h264enc_get_input_buffer _ => true
  | Event.memcpy_input _ _ => true
  | Event.h264enc_encode_picture _ _ => true
  | Event.h264enc_get_bytestream_length _ _ => true
  | Event.h264enc_get_bytestream_buffer _ => true
  | _ => false

/-- The driver calls of a trace, in order. -/
def driver_calls (trace : List Event) : List Event :=
  trace.filter is_driver_call

/-! ## Lifecycle (lines 295-358) -/

/-- The configuration filled in on READY to PAUSED (lines 310-319). -/
def encoder_params (filter : GstCedarH264Enc) : h264enc_params :=
  { width := filter.width,
    src_width := filter.width,
    height := filter.height,
    src_height := filter.height,
    src_format := h264enc_color_format.H264_FMT_NV12,
    profile_idc := 77,
    level_idc := 41,
    entropy_coding_mode := h264enc_entropy_coding_mode.H264_EC_CABAC,
    qp := filter.pic_init_qp,
    keyframe_interval := filter.keyframe_interval }

/-- Outcome of the first `switch`: an early `return`, or control reaches the
call of the parent class. -/
inductive Setup where
  | returned (ret : GstStateChangeReturn) (w : World)
  | proceeds (w : World)
  deriving DecidableEq, Repr

/-- The first `switch` of `change_state` (lines 301-334). -/
def hardware_setup (e : Env) (w : World) (transition : GstStateChange) : Setup :=
  match transition with
  | GstStateChange.NULL_TO_READY =>
    let ret := e.ve_open
    let w := { w.log (Event.ve_open ret) with hw := w.hw.ve_open ret }
    if ret = 0 then Setup.returned GstStateChangeReturn.FAILURE w else Setup.proceeds w
  | GstStateChange.READY_TO_PAUSED =>
    let p := encoder_params w.filter
    let enc := e.h264enc_new p
    let w := { w.log (Event.h264enc_new p enc) with
               hw := w.hw.h264enc_new p enc, filter := { w.filter with enc := enc } }
    if enc = 0 then Setup.returned GstStateChangeReturn.FAILURE w else Setup.proceeds w
  | GstStateChange.PAUSED_TO_PLAYING => Setup.proceeds w
  | _ => Setup.proceeds w

/-- The second `switch` of `change_state` (lines 340-355). -/
def hardware_teardown (w : World) (transition : GstStateChange) : World :=
  match transition with
  | GstStateChange.PLAYING_TO_PAUSED => w
  | GstStateChange.PAUSED_TO_READY =>
    { w.log (Event.h264enc_free w.filter.enc) with hw := w.hw.h264enc_free w.filter.enc }
  | GstStateChange.READY_TO_NULL =>
    { w.log Event.ve_close with hw := w.hw.ve_close }
  | _ => w

/-- The function `gst_cedarh264enc_change_state` (lines 295-358). -/
def gst_cedarh264enc_change_state (e : Env) (w : World) (transition : GstStateChange) :
    GstStateChangeReturn × World :=
  match hardware_setup e w transition with
  | Setup.returned ret w => (ret, w)
  | Setup.proceeds w =>
    let ret := e.parent_change_state transition
    let w := w.log (Event.parent_change_state transition ret)
    if ret = GstStateChangeReturn.FAILURE then (ret, w)
    else (ret, hardware_teardown w transition)

/-- Runs `change_state` through a list of transitions, one after the other,
collecting what each call returns. -/
def run_transitions (e : Env) (w : World) :
    List GstStateChange → List GstStateChangeReturn × World
  | [] => ([], w)
  | t :: rest =>
    let r := gst_cedarh264enc_change_state e w t
    let rs := run_transitions e r.2 rest
    (r.1 :: rs.1, rs.2)

/-! ## Concrete inputs -/

/-- A driver and neighbours that accept everything: the encoder writes the five
bytes 0 0 0 1 103 into its output slot. -/
def cooperative_env : Env :=
  { ve_open := 1,
    h264enc_new := fun _ => 7,
    h264enc_encode_picture := 1,
    h264enc_get_bytestream_length := 5,
    h264enc_get_bytestream_buffer := fun i => [0, 0, 0, 1, 103].getD i 0,
    parent_change_state := fun _ => GstStateChangeReturn.SUCCESS,
    gst_pad_push := fun _ _ => GstFlowReturn.OK,
    gst_pad_set_caps := fun _ _ => true,
    gst_pad_set_caps_raw := fun _ _ => true,
    gst_pad_event_default := fun _ => true }

/-- The cooperative environment, except that `h264enc_encode_picture` fails. -/
def encode_failure_env : Env :=
  { cooperative_env with h264enc_encode_picture := 0 }

/-- A freshly initialised element, no engine reservation, no session, no call
made yet. -/
def unloaded_world : World :=
  { filter := gst_cedarh264enc_init, hw := { ve_opened := false, sessions := [] }, trace := [] }

/-- An element in the streaming state: 16x16 negotiated, engine reserved, one
session under handle 7. -/
def streaming_world : World :=
  { filter := { gst_cedarh264enc_init with width := 16, height := 16, enc := 7 },
    hw := { ve_opened := true,
            sessions := [(7, encoder_params { gst_cedarh264enc_init with width := 16, height := 16 })] },
    trace := [] }

/-- A readable inbound frame of three bytes with timestamp 40. -/
def sample_frame : GstBuffer :=
  { timestamp := 40, data := [1, 2, 3], readable := true }

/-- An inbound buffer with timestamp 40 that cannot be mapped for reading. -/
def unmappable_frame : GstBuffer :=
  { timestamp := 40, data := [], readable := false }

/-- A sink-side description inside the sink template: NV12, 640x480, 25/1. -/
def vga_caps : VideoCaps :=
  { format := "NV12", width := 640, height := 480, fps_n := 25, fps_d := 1 }

/-- A sink-side description outside the sink template: NV12, 8x8, 25/1. -/
def tiny_caps : VideoCaps :=
  { format := "NV12", width := 8, height := 8, fps_n := 25, fps_d := 1 }

/-- The Idle state: a freshly initialised element with 16x16 negotiated, the
engine reserved, no session. -/
def idle_world : World :=
  { filter := { gst_cedarh264enc_init with width := 16, height := 16 },
    hw := { ve_opened := true, sessions := [] },
    trace := [] }

/-- The Configured state reached from `idle_world`: one session under handle 7. -/
def configured_world : World :=
  { filter := { gst_cedarh264enc_init with width := 16, height := 16, enc := 7 },
    hw := { ve_opened := true,
            sessions := [(7, encoder_params { gst_cedarh264enc_init with width := 16, height := 16 })] },
    trace := [] }

/-- The cooperative environment, except that `ve_open` fails. -/
def engine_busy_env : Env :=
  { cooperative_env with ve_open := 0 }

/-- The cooperative environment, except that `h264enc_new` returns NULL. -/
def encoder_rejects_env : Env :=
  { cooperative_env with h264enc_new := fun _ => 0 }

/-- The cooperative environment, except that the parent class reports failure
for every transition. -/
def chain_failure_env : Env :=
  { cooperative_env with parent_change_state := fun _ => GstStateChangeReturn.FAILURE }

/-! ## Trace lemmas -/

theorem pushed_append (a b : List Event) : pushed (a ++ b) = pushed a ++ pushed b := by
  induction a with
  | nil => rfl
  | cons ev rest ih => cases ev <;> simp [pushed, ih]

/-! ## Data path -/

/-- C1, evaluated on the code: for the readable frame `sample_frame`, when
`h264enc_encode_picture` reports failure, `gst_cedarh264enc_chain` returns
`GST_FLOW_ERROR` and pushes nothing, but it makes no `gst_buffer_unmap` and no
`gst_buffer_unref` call: the release count of the inbound buffer is 0, not 1. -/
theorem chain_encode_failure_never_releases_inbound :
    (gst_cedarh264enc_chain encode_failure_env streaming_world sample_frame).1
        = GstFlowReturn.ERROR
      ∧ pushed (gst_cedarh264enc_chain encode_failure_env streaming_world sample_frame).2.trace
        = []
      ∧ release_count
          (gst_cedarh264enc_chain encode_failure_env streaming_world sample_frame).2.trace
          sample_frame = 0
      ∧ (gst_cedarh264enc_chain encode_failure_env streaming_world sample_frame).2.trace
        = [Event.gst_buffer_map sample_frame true,
           Event.h264enc_get_input_buffer 7,
           Event.memcpy_input 7 [1, 2, 3],
           Event.h264enc_encode_picture 7 0] := by
  decide

/-- C2: for every inbound buffer that maps and for which `h264enc_encode_picture`
succeeds, `gst_cedarh264enc_chain` pushes exactly one buffer; its length is the
reported bytestream length, its bytes are the first that many bytes of the
output slot, its timestamp is the inbound timestamp; the inbound buffer is
released exactly once, and the function returns what the push returned. -/
theorem chain_success_forwards_bitstream (e : Env) (w : World) (buf : GstBuffer)
    (hmap : buf.readable = true) (henc : e.h264enc_encode_picture ≠ 0) :
    ∃ outbuf : GstBuffer,
      outbuf.data.length = e.h264enc_get_bytestream_length
      ∧ outbuf.data
          = (List.range e.h264enc_get_bytestream_length).map e.h264enc_get_bytestream_buffer
      ∧ outbuf.timestamp = buf.timestamp
      ∧ pushed (gst_cedarh264enc_chain e w buf).2.trace = pushed w.trace ++ [outbuf]
      ∧ release_count (gst_cedarh264enc_chain e w buf).2.trace buf
          = release_count w.trace buf + 1
      ∧ (gst_cedarh264enc_chain e w buf).1 = e.gst_pad_push Pad.src outbuf := by
  refine ⟨{ timestamp := buf.timestamp,
            data := (List.range e.h264enc_get_bytestream_length).map
              e.h264enc_get_bytestream_buffer,
            readable := true }, by simp, rfl, rfl, ?_, ?_, ?_⟩
  · simp [gst_cedarh264enc_chain, gst_buffer_map, hmap, henc, World.log, pushed_append, pushed,
      gst_buffer_fill, gst_buffer_new_and_alloc]
  · simp [gst_cedarh264enc_chain, gst_buffer_map, hmap, henc, World.log, release_count,
      List.count_append]
  · simp [gst_cedarh264enc_chain, gst_buffer_map, hmap, henc, gst_buffer_fill,
      gst_buffer_new_and_alloc]

/-- Witness of C2 on `sample_frame` with the cooperative driver: one buffer of
five bytes with timestamp 40 is pushed and the frame is released once. -/
theorem chain_success_forwards_bitstream_witness :
    sample_frame.readable = true ∧ cooperative_env.h264enc_encode_picture ≠ 0
      ∧ ∃ outbuf : GstBuffer,
        outbuf.data.length = cooperative_env.h264enc_get_bytestream_length
        ∧ outbuf.data
            = (List.range cooperative_env.h264enc_get_bytestream_length).map
                cooperative_env.h264enc_get_bytestream_buffer
        ∧ outbuf.timestamp = sample_frame.timestamp
        ∧ pushed (gst_cedarh264enc_chain cooperative_env streaming_world sample_frame).2.trace
            = pushed streaming_world.trace ++ [outbuf]
        ∧ release_count
            (gst_cedarh264enc_chain cooperative_env streaming_world sample_frame).2.trace
            sample_frame = release_count streaming_world.trace sample_frame + 1
        ∧ (gst_cedarh264enc_chain cooperative_env streaming_world sample_frame).1
            = cooperative_env.gst_pad_push Pad.src outbuf :=
  ⟨by decide, by decide,
    chain_success_forwards_bitstream cooperative_env streaming_world sample_frame
      (by decide) (by decide)⟩

/-- C3: for every inbound buffer that cannot be mapped for reading,
`gst_cedarh264enc_chain` pushes exactly one buffer, which is empty and carries
the inbound timestamp, returns what that push returned, and makes no call to
the driver: the input slot is not written and `h264enc_encode_picture` is not
invoked. -/
theorem chain_unmappable_forwards_empty (e : Env) (w : World) (buf : GstBuffer)
    (hmap : buf.readable = false) :
    ∃ outbuf : GstBuffer,
      outbuf.data.length = 0
      ∧ outbuf.timestamp = buf.timestamp
      ∧ pushed (gst_cedarh264enc_chain e w buf).2.trace = pushed w.trace ++ [outbuf]
      ∧ (gst_cedarh264enc_chain e w buf).1 = e.gst_pad_push Pad.src outbuf
      ∧ driver_calls (gst_cedarh264enc_chain e w buf).2.trace = driver_calls w.trace
      ∧ (gst_cedarh264enc_chain e w buf).2.trace
          = w.trace ++ [Event.gst_buffer_map buf false,
                        Event.gst_pad_push Pad.src outbuf (e.gst_pad_push Pad.src outbuf)] := by
  refine ⟨{ timestamp := buf.timestamp, data := [], readable := true }, rfl, rfl, ?_, ?_, ?_, ?_⟩
  · simp [gst_cedarh264enc_chain, gst_buffer_map, hmap, World.log, pushed_append, pushed,
      gst_buffer_new]
  · simp [gst_cedarh264enc_chain, gst_buffer_map, hmap, gst_buffer_new]
  · simp [gst_cedarh264enc_chain, gst_buffer_map, hmap, World.log, driver_calls, is_driver_call]
  · simp [gst_cedarh264enc_chain, gst_buffer_map, hmap, World.log, gst_buffer_new]

/-- Witness of C3 on `unmappable_frame`: an empty buffer with timestamp 40 is
pushed and the driver is not called. -/
theorem chain_unmappable_forwards_empty_witness :
    unmappable_frame.readable = false
      ∧ ∃ outbuf : GstBuffer,
        outbuf.data.length = 0
        ∧ outbuf.timestamp = unmappable_frame.timestamp
        ∧ pushed (gst_cedarh264enc_chain cooperative_env streaming_world unmappable_frame).2.trace
            = pushed streaming_world.trace ++ [outbuf]
        ∧ (gst_cedarh264enc_chain cooperative_env streaming_world unmappable_frame).1
            = cooperative_env.gst_pad_push Pad.src outbuf
        ∧ driver_calls
            (gst_cedarh264enc_chain cooperative_env streaming_world unmappable_frame).2.trace
            = driver_calls streaming_world.trace
        ∧ (gst_cedarh264enc_chain cooperative_env streaming_world unmappable_frame).2.trace
            = streaming_world.trace
              ++ [Event.gst_buffer_map unmappable_frame false,
                  Event.gst_pad_push Pad.src outbuf (cooperative_env.gst_pad_push Pad.src outbuf)] :=
  ⟨by decide,
    chain_unmappable_forwards_empty cooperative_env streaming_world unmappable_frame (by decide)⟩

/-! ## Negotiation -/

/-- C4: for every sink-side description with width in [16,1920] and height in
[16,1080] and any framerate, `gst_cedarh264enc_set_caps` proposes to the source
pad the source template with width, height, framerate of the description and
profile "main", stores width and height in the element, and returns true
exactly when the downstream side accepts the proposal. -/
theorem set_caps_sink_proposes_same_geometry (e : Env) (w : World) (caps : VideoCaps)
    (hwidth : 16 ≤ caps.width ∧ caps.width ≤ 1920)
    (hheight : 16 ≤ caps.height ∧ caps.height ≤ 1080) :
    ∃ proposal : GstCaps,
      proposal
          = { media_type := "video/x-h264",
              fields := [("stream-format", GValue.string "byte-stream"),
                         ("alignment", GValue.string "nal"),
                         ("profile", GValue.string "main"),
                         ("width", GValue.int caps.width),
                         ("height", GValue.int caps.height),
                         ("framerate", GValue.fraction caps.fps_n caps.fps_d)] }
      ∧ proposal
          = gst_caps_set_simple (gst_caps_set_simple (gst_caps_set_simple (gst_caps_set_simple
              src_factory "width" (GValue.int caps.width)) "height" (GValue.int caps.height))
              "framerate" (GValue.fraction caps.fps_n caps.fps_d)) "profile" (GValue.string "main")
      ∧ (gst_cedarh264enc_set_caps e w Pad.sink caps).2.trace
          = w.trace ++ [Event.gst_pad_set_caps Pad.src proposal (e.gst_pad_set_caps Pad.src proposal)]
      ∧ (gst_cedarh264enc_set_caps e w Pad.sink caps).2.filter.width = caps.width
      ∧ (gst_cedarh264enc_set_caps e w Pad.sink caps).2.filter.height = caps.height
      ∧ ((gst_cedarh264enc_set_caps e w Pad.sink caps).1 = true
          ↔ e.gst_pad_set_caps Pad.src proposal = true) := by
  have _ := hwidth
  have _ := hheight
  refine ⟨_, rfl, ?_, ?_, ?_, ?_, ?_⟩
  · simp [gst_caps_set_simple, src_factory, set_field]
  · simp [gst_cedarh264enc_set_caps, World.log, othercaps, gst_video_info_from_caps,
      gst_caps_set_simple, src_factory, set_field]
  · simp [gst_cedarh264enc_set_caps, World.log, gst_video_info_from_caps]
  · simp [gst_cedarh264enc_set_caps, World.log, gst_video_info_from_caps]
  · simp [gst_cedarh264enc_set_caps, othercaps, gst_video_info_from_caps,
      gst_caps_set_simple, src_factory, set_field]

/-- Witness of C4 on the 640x480 description at 25/1 with a downstream side
that accepts. -/
theorem set_caps_sink_proposes_same_geometry_witness :
    (16 ≤ vga_caps.width ∧ vga_caps.width ≤ 1920)
      ∧ (16 ≤ vga_caps.height ∧ vga_caps.height ≤ 1080)
      ∧ ∃ proposal : GstCaps,
        proposal
            = { media_type := "video/x-h264",
                fields := [("stream-format", GValue.string "byte-stream"),
                           ("alignment", GValue.string "nal"),
                           ("profile", GValue.string "main"),
                           ("width", GValue.int vga_caps.width),
                           ("height", GValue.int vga_caps.height),
                           ("framerate", GValue.fraction vga_caps.fps_n vga_caps.fps_d)] }
        ∧ proposal
            = gst_caps_set_simple (gst_caps_set_simple (gst_caps_set_simple (gst_caps_set_simple
                src_factory "width" (GValue.int vga_caps.width))
                "height" (GValue.int vga_caps.height))
                "framerate" (GValue.fraction vga_caps.fps_n vga_caps.fps_d))
                "profile" (GValue.string "main")
        ∧ (gst_cedarh264enc_set_caps cooperative_env unloaded_world Pad.sink vga_caps).2.trace
            = unloaded_world.trace
              ++ [Event.gst_pad_set_caps Pad.src proposal
                    (cooperative_env.gst_pad_set_caps Pad.src proposal)]
        ∧ (gst_cedarh264enc_set_caps cooperative_env unloaded_world Pad.sink vga_caps).2.filter.width
            = vga_caps.width
        ∧ (gst_cedarh264enc_set_caps cooperative_env unloaded_world Pad.sink vga_caps).2.filter.height
            = vga_caps.height
        ∧ ((gst_cedarh264enc_set_caps cooperative_env unloaded_world Pad.sink vga_caps).1 = true
            ↔ cooperative_env.gst_pad_set_caps Pad.src proposal = true) :=
  ⟨by decide, by decide,
    set_caps_sink_proposes_same_geometry cooperative_env unloaded_world vga_caps
      (by decide) (by decide)⟩

/-- A description inside the caps of the sink template reaches
`gst_cedarh264enc_set_caps` on the sink pad. -/
theorem gst_pad_send_caps_event_accepted (e : Env) (w : World) (caps : VideoCaps)
    (hin : sink_factory_accepts caps = true) :
    gst_pad_send_caps_event e w caps = gst_cedarh264enc_set_caps e w Pad.sink caps := by
  simp [gst_pad_send_caps_event, gst_cedarh264enc_sink_event, hin]

/-- A description whose width or height is out of range is outside the caps of
the sink template. -/
theorem sink_factory_rejects_out_of_range (caps : VideoCaps)
    (hout : ¬ (16 ≤ caps.width ∧ caps.width ≤ 1920)
      ∨ ¬ (16 ≤ caps.height ∧ caps.height ≤ 1080)) :
    sink_factory_accepts caps = false := by
  simp only [sink_factory_accepts, Bool.and_eq_false_iff, decide_eq_false_iff_not]
  rcases hout with h | h
  · by_cases h16 : 16 ≤ caps.width
    · exact Or.inl (Or.inl (Or.inr (fun h2 => h ⟨h16, h2⟩)))
    · exact Or.inl (Or.inl (Or.inl (Or.inr h16)))
  · by_cases h16 : 16 ≤ caps.height
    · exact Or.inr (fun h2 => h ⟨h16, h2⟩)
    · exact Or.inl (Or.inr h16)

/-- C5: for every sink-side description whose width is outside [16,1920] or
whose height is outside [16,1080], negotiation on the sink pad fails: the CAPS
event is answered with false, `gst_cedarh264enc_set_caps` proposes nothing to
the source pad, the element and the hardware state stay as they were, and no
driver call is made, so no `ve_open` is attempted. -/
theorem negotiation_out_of_range_fails (e : Env) (w : World) (caps : VideoCaps)
    (hout : ¬ (16 ≤ caps.width ∧ caps.width ≤ 1920)
      ∨ ¬ (16 ≤ caps.height ∧ caps.height ≤ 1080)) :
    (gst_pad_send_caps_event e w caps).1 = false
      ∧ (gst_pad_send_caps_event e w caps).2.trace = w.trace
      ∧ driver_calls (gst_pad_send_caps_event e w caps).2.trace = driver_calls w.trace
      ∧ (∀ ret, Event.ve_open ret ∉ (gst_pad_send_caps_event e w caps).2.trace.drop w.trace.length)
      ∧ (gst_pad_send_caps_event e w caps).2.hw = w.hw
      ∧ (gst_pad_send_caps_event e w caps).2.filter = w.filter := by
  have hrej := sink_factory_rejects_out_of_range caps hout
  simp [gst_pad_send_caps_event, hrej]

/-- Witness of C5 on the 8x8 description, with a downstream side that would
accept any proposal. -/
theorem negotiation_out_of_range_fails_witness :
    (¬ (16 ≤ tiny_caps.width ∧ tiny_caps.width ≤ 1920)
        ∨ ¬ (16 ≤ tiny_caps.height ∧ tiny_caps.height ≤ 1080))
      ∧ (gst_pad_send_caps_event cooperative_env unloaded_world tiny_caps).1 = false
      ∧ (gst_pad_send_caps_event cooperative_env unloaded_world tiny_caps).2.trace
          = unloaded_world.trace
      ∧ (gst_pad_send_caps_event cooperative_env unloaded_world tiny_caps).2.hw
          = unloaded_world.hw :=
  ⟨by decide,
    (negotiation_out_of_range_fails cooperative_env unloaded_world tiny_caps (by decide)).1,
    (negotiation_out_of_range_fails cooperative_env unloaded_world tiny_caps (by decide)).2.1,
    (negotiation_out_of_range_fails cooperative_env unloaded_world tiny_caps
      (by decide)).2.2.2.2.1⟩

/-! ## Lifecycle -/

/-- C6: from the Idle state (engine reserved, no session), READY to PAUSED,
PAUSED to PLAYING, PLAYING to PAUSED, PAUSED to READY, READY to NULL with
`h264enc_new` and every call of the parent class succeeding leaves no session
and no engine reservation; the driver is called exactly three times, in the
order `h264enc_new`, `h264enc_free` of the handle it returned, `ve_close`. -/
theorem full_cycle_releases_session_and_engine (e : Env) (w : World)
    (hidle : w.hw = { ve_opened := true, sessions := [] })
    (hnew : e.h264enc_new (encoder_params w.filter) ≠ 0)
    (hchain : ∀ t, e.parent_change_state t ≠ GstStateChangeReturn.FAILURE) :
    (run_transitions e w
        [GstStateChange.READY_TO_PAUSED, GstStateChange.PAUSED_TO_PLAYING,
         GstStateChange.PLAYING_TO_PAUSED, GstStateChange.PAUSED_TO_READY,
         GstStateChange.READY_TO_NULL]).2.hw = { ve_opened := false, sessions := [] }
      ∧ (run_transitions e w
          [GstStateChange.READY_TO_PAUSED, GstStateChange.PAUSED_TO_PLAYING,
           GstStateChange.PLAYING_TO_PAUSED, GstStateChange.PAUSED_TO_READY,
           GstStateChange.READY_TO_NULL]).2.trace
          = w.trace ++
            [Event.h264enc_new (encoder_params w.filter) (e.h264enc_new (encoder_params w.filter)),
             Event.parent_change_state GstStateChange.READY_TO_PAUSED
               (e.parent_change_state GstStateChange.READY_TO_PAUSED),
             Event.parent_change_state GstStateChange.PAUSED_TO_PLAYING
               (e.parent_change_state GstStateChange.PAUSED_TO_PLAYING),
             Event.parent_change_state GstStateChange.PLAYING_TO_PAUSED
               (e.parent_change_state GstStateChange.PLAYING_TO_PAUSED),
             Event.parent_change_state GstStateChange.PAUSED_TO_READY
               (e.parent_change_state GstStateChange.PAUSED_TO_READY),
             Event.h264enc_free (e.h264enc_new (encoder_params w.filter)),
             Event.parent_change_state GstStateChange.READY_TO_NULL
               (e.parent_change_state GstStateChange.READY_TO_NULL),
             Event.ve_close]
      ∧ driver_calls (run_transitions e w
          [GstStateChange.READY_TO_PAUSED, GstStateChange.PAUSED_TO_PLAYING,
           GstStateChange.PLAYING_TO_PAUSED, GstStateChange.PAUSED_TO_READY,
           GstStateChange.READY_TO_NULL]).2.trace
          = driver_calls w.trace ++
            [Event.h264enc_new (encoder_params w.filter) (e.h264enc_new (encoder_params w.filter)),
             Event.h264enc_free (e.h264enc_new (encoder_params w.filter)),
             Event.ve_close]
      ∧ (run_transitions e w
          [GstStateChange.READY_TO_PAUSED, GstStateChange.PAUSED_TO_PLAYING,
           GstStateChange.PLAYING_TO_PAUSED, GstStateChange.PAUSED_TO_READY,
           GstStateChange.READY_TO_NULL]).1
          = [e.parent_change_state GstStateChange.READY_TO_PAUSED,
             e.parent_change_state GstStateChange.PAUSED_TO_PLAYING,
             e.parent_change_state GstStateChange.PLAYING_TO_PAUSED,
             e.parent_change_state GstStateChange.PAUSED_TO_READY,
             e.parent_change_state GstStateChange.READY_TO_NULL] := by
  have h1 := hchain GstStateChange.READY_TO_PAUSED
  have h2 := hchain GstStateChange.PAUSED_TO_PLAYING
  have h3 := hchain GstStateChange.PLAYING_TO_PAUSED
  have h4 := hchain GstStateChange.PAUSED_TO_READY
  have h5 := hchain GstStateChange.READY_TO_NULL
  refine ⟨?_, ?_, ?_, ?_⟩ <;>
    simp [run_transitions, gst_cedarh264enc_change_state, hardware_setup, hardware_teardown,
      World.log, Hw.h264enc_new, Hw.h264enc_free, Hw.ve_close, hidle, hnew, h1, h2, h3, h4, h5,
      driver_calls, is_driver_call]

/-- Witness of C6 on `idle_world` with the cooperative driver. -/
theorem full_cycle_releases_session_and_engine_witness :
    (run_transitions cooperative_env idle_world
        [GstStateChange.READY_TO_PAUSED, GstStateChange.PAUSED_TO_PLAYING,
         GstStateChange.PLAYING_TO_PAUSED, GstStateChange.PAUSED_TO_READY,
         GstStateChange.READY_TO_NULL]).2.hw = { ve_opened := false, sessions := [] } :=
  (full_cycle_releases_session_and_engine cooperative_env idle_world rfl (by decide)
    (by intro t; cases t <;> decide)).1

/-- C7: when the hardware step of an upward transition fails (`ve_open`
returns 0 on NULL to READY, or `h264enc_new` returns NULL on READY to PAUSED),
`gst_cedarh264enc_change_state` returns `GST_STATE_CHANGE_FAILURE`; the failed
driver call is the only call it makes, so the parent class is not invoked and
no further driver call follows; the hardware state is as before (no engine
reservation gained, no session gained) and the negotiated geometry and the
properties are untouched. -/
theorem change_state_hardware_failure_aborts (e : Env) (w : World) (t : GstStateChange)
    (hfail : (t = GstStateChange.NULL_TO_READY ∧ e.ve_open = 0)
      ∨ (t = GstStateChange.READY_TO_PAUSED ∧ e.h264enc_new (encoder_params w.filter) = 0)) :
    (gst_cedarh264enc_change_state e w t).1 = GstStateChangeReturn.FAILURE
      ∧ (gst_cedarh264enc_change_state e w t).2.trace
          = w.trace ++ [if t = GstStateChange.NULL_TO_READY then Event.ve_open 0
                        else Event.h264enc_new (encoder_params w.filter) 0]
      ∧ (gst_cedarh264enc_change_state e w t).2.hw = w.hw
      ∧ (gst_cedarh264enc_change_state e w t).2.filter
          = (if t = GstStateChange.NULL_TO_READY then w.filter else { w.filter with enc := 0 }) := by
  rcases hfail with ⟨ht, h⟩ | ⟨ht, h⟩ <;> subst ht <;>
    simp [gst_cedarh264enc_change_state, hardware_setup, World.log, Hw.ve_open, Hw.h264enc_new, h]

/-- Witness of C7: `ve_open` failing from the Unloaded state, and `h264enc_new`
failing from the Idle state. -/
theorem change_state_hardware_failure_aborts_witness :
    ((gst_cedarh264enc_change_state engine_busy_env unloaded_world
          GstStateChange.NULL_TO_READY).1 = GstStateChangeReturn.FAILURE
        ∧ (gst_cedarh264enc_change_state engine_busy_env unloaded_world
            GstStateChange.NULL_TO_READY).2.hw = unloaded_world.hw)
      ∧ ((gst_cedarh264enc_change_state encoder_rejects_env idle_world
            GstStateChange.READY_TO_PAUSED).1 = GstStateChangeReturn.FAILURE
        ∧ (gst_cedarh264enc_change_state encoder_rejects_env idle_world
            GstStateChange.READY_TO_PAUSED).2.hw = idle_world.hw) :=
  ⟨⟨(change_state_hardware_failure_aborts engine_busy_env unloaded_world
        GstStateChange.NULL_TO_READY (Or.inl ⟨rfl, rfl⟩)).1,
    (change_state_hardware_failure_aborts engine_busy_env unloaded_world
        GstStateChange.NULL_TO_READY (Or.inl ⟨rfl, rfl⟩)).2.2.1⟩,
   ⟨(change_state_hardware_failure_aborts encoder_rejects_env idle_world
        GstStateChange.READY_TO_PAUSED (Or.inr ⟨rfl, rfl⟩)).1,
    (change_state_hardware_failure_aborts encoder_rejects_env idle_world
        GstStateChange.READY_TO_PAUSED (Or.inr ⟨rfl, rfl⟩)).2.2.1⟩⟩

/-- C8: for every transition on which the parent class is called (the first
`switch` did not return) with the world `w1` at that point: if the parent class
reports failure, `gst_cedarh264enc_change_state` returns that failure and the
call of the parent class is the last call it makes, the hardware state and the
element being those of `w1`; in particular on PAUSED to READY no `h264enc_free`
and on READY to NULL no `ve_close` happens.  When the parent class does not
fail, on PAUSED to READY the call after the parent class is `h264enc_free` and
on READY to NULL it is `ve_close`. -/
theorem change_state_chain_failure_stops (e : Env) (w w1 : World) (t : GstStateChange)
    (hsetup : hardware_setup e w t = Setup.proceeds w1) :
    (e.parent_change_state t = GstStateChangeReturn.FAILURE →
        (gst_cedarh264enc_change_state e w t).1 = GstStateChangeReturn.FAILURE
        ∧ (gst_cedarh264enc_change_state e w t).2.trace
            = w1.trace ++ [Event.parent_change_state t GstStateChangeReturn.FAILURE]
        ∧ (gst_cedarh264enc_change_state e w t).2.hw = w1.hw
        ∧ (gst_cedarh264enc_change_state e w t).2.filter = w1.filter)
      ∧ (e.parent_change_state t = GstStateChangeReturn.FAILURE →
          t = GstStateChange.PAUSED_TO_READY ∨ t = GstStateChange.READY_TO_NULL →
          (gst_cedarh264enc_change_state e w t).2.trace
              = w.trace ++ [Event.parent_change_state t GstStateChangeReturn.FAILURE]
          ∧ (gst_cedarh264enc_change_state e w t).2.hw = w.hw)
      ∧ (e.parent_change_state t ≠ GstStateChangeReturn.FAILURE →
          t = GstStateChange.PAUSED_TO_READY →
          (gst_cedarh264enc_change_state e w t).1 = e.parent_change_state t
          ∧ (gst_cedarh264enc_change_state e w t).2.trace
              = w.trace ++ [Event.parent_change_state t (e.parent_change_state t),
                            Event.h264enc_free w.filter.enc]
          ∧ (gst_cedarh264enc_change_state e w t).2.hw = w.hw.h264enc_free w.filter.enc)
      ∧ (e.parent_change_state t ≠ GstStateChangeReturn.FAILURE →
          t = GstStateChange.READY_TO_NULL →
          (gst_cedarh264enc_change_state e w t).1 = e.parent_change_state t
          ∧ (gst_cedarh264enc_change_state e w t).2.trace
              = w.trace ++ [Event.parent_change_state t (e.parent_change_state t),
                            Event.ve_close]
          ∧ (gst_cedarh264enc_change_state e w t).2.hw = w.hw.ve_close) := by
  refine ⟨?_, ?_, ?_, ?_⟩
  · intro hf
    simp [gst_cedarh264enc_change_state, hsetup, hf, World.log]
  · intro hf ht
    rcases ht with ht | ht <;> subst ht <;>
      simp [gst_cedarh264enc_change_state, hardware_setup, hf, World.log]
  · intro hf ht
    subst ht
    simp [gst_cedarh264enc_change_state, hardware_setup, hardware_teardown, hf, World.log]
  · intro hf ht
    subst ht
    simp [gst_cedarh264enc_change_state, hardware_setup, hardware_teardown, hf, World.log]

/-- Witness of C8 on PAUSED to READY from the Configured state: with a failing
parent class the session under handle 7 is still there and the only call is the
one to the parent class; with a succeeding one `h264enc_free 7` follows it. -/
theorem change_state_chain_failure_stops_witness :
    ((gst_cedarh264enc_change_state chain_failure_env configured_world
          GstStateChange.PAUSED_TO_READY).1 = GstStateChangeReturn.FAILURE
        ∧ (gst_cedarh264enc_change_state chain_failure_env configured_world
            GstStateChange.PAUSED_TO_READY).2.trace
            = configured_world.trace
              ++ [Event.parent_change_state GstStateChange.PAUSED_TO_READY
                    GstStateChangeReturn.FAILURE]
        ∧ (gst_cedarh264enc_change_state chain_failure_env configured_world
            GstStateChange.PAUSED_TO_READY).2.hw = configured_world.hw
        ∧ (gst_cedarh264enc_change_state chain_failure_env configured_world
            GstStateChange.PAUSED_TO_READY).2.filter = configured_world.filter)
      ∧ ((gst_cedarh264enc_change_state cooperative_env configured_world
            GstStateChange.PAUSED_TO_READY).1
            = cooperative_env.parent_change_state GstStateChange.PAUSED_TO_READY
        ∧ (gst_cedarh264enc_change_state cooperative_env configured_world
            GstStateChange.PAUSED_TO_READY).2.trace
            = configured_world.trace
              ++ [Event.parent_change_state GstStateChange.PAUSED_TO_READY
                    (cooperative_env.parent_change_state GstStateChange.PAUSED_TO_READY),
                  Event.h264enc_free configured_world.filter.enc]
        ∧ (gst_cedarh264enc_change_state cooperative_env configured_world
            GstStateChange.PAUSED_TO_READY).2.hw
            = configured_world.hw.h264enc_free configured_world.filter.enc) :=
  ⟨(change_state_chain_failure_stops chain_failure_env configured_world configured_world
      GstStateChange.PAUSED_TO_READY rfl).1 rfl,
   (change_state_chain_failure_stops cooperative_env configured_world configured_world
      GstStateChange.PAUSED_TO_READY rfl).2.2.1 (by decide) rfl⟩

/-- C10: on READY to PAUSED the configuration handed to `h264enc_new` has width
and source width equal to the negotiated width, height and source height equal
to the negotiated height, source format NV12, profile 77, level 41, CABAC, and
the quantization parameter and keyframe interval the element holds at that
moment; when the session is created it is registered under exactly that
configuration.  A later property set makes no driver call, leaves the hardware
state (and with it the configuration of the open session) as it was, and
changes nothing in the element but the stored property value. -/
theorem ready_to_paused_configuration_snapshot (e : Env) (w : World) (prop_id : Nat)
    (value : Int) (hnew : e.h264enc_new (encoder_params w.filter) ≠ 0) :
    encoder_params w.filter
        = { width := w.filter.width, src_width := w.filter.width,
            height := w.filter.height, src_height := w.filter.height,
            src_format := h264enc_color_format.H264_FMT_NV12,
            profile_idc := 77, level_idc := 41,
            entropy_coding_mode := h264enc_entropy_coding_mode.H264_EC_CABAC,
            qp := w.filter.pic_init_qp, keyframe_interval := w.filter.keyframe_interval }
      ∧ driver_calls (gst_cedarh264enc_change_state e w GstStateChange.READY_TO_PAUSED).2.trace
          = driver_calls w.trace
            ++ [Event.h264enc_new (encoder_params w.filter)
                  (e.h264enc_new (encoder_params w.filter))]
      ∧ (gst_cedarh264enc_change_state e w GstStateChange.READY_TO_PAUSED).2.hw.sessions
          = (e.h264enc_new (encoder_params w.filter), encoder_params w.filter) :: w.hw.sessions
      ∧ (gst_cedarh264enc_set_property
            (gst_cedarh264enc_change_state e w GstStateChange.READY_TO_PAUSED).2
            prop_id value).hw
          = (gst_cedarh264enc_change_state e w GstStateChange.READY_TO_PAUSED).2.hw
      ∧ driver_calls (gst_cedarh264enc_set_property
            (gst_cedarh264enc_change_state e w GstStateChange.READY_TO_PAUSED).2
            prop_id value).trace
          = driver_calls (gst_cedarh264enc_change_state e w GstStateChange.READY_TO_PAUSED).2.trace
      ∧ (gst_cedarh264enc_set_property
            (gst_cedarh264enc_change_state e w GstStateChange.READY_TO_PAUSED).2
            prop_id value).filter
          = (if prop_id = PROP_QP then
              { (gst_cedarh264enc_change_state e w GstStateChange.READY_TO_PAUSED).2.filter with
                pic_init_qp := value }
            else if prop_id = PROP_KEYFRAME_INTERVAL then
              { (gst_cedarh264enc_change_state e w GstStateChange.READY_TO_PAUSED).2.filter with
                keyframe_interval := value }
            else (gst_cedarh264enc_change_state e w GstStateChange.READY_TO_PAUSED).2.filter) := by
  refine ⟨rfl, ?_, ?_, ?_, ?_, ?_⟩
  · by_cases hp : e.parent_change_state GstStateChange.READY_TO_PAUSED
        = GstStateChangeReturn.FAILURE <;>
      simp [gst_cedarh264enc_change_state, hardware_setup, hardware_teardown, World.log,
        hnew, hp, driver_calls, is_driver_call]
  · by_cases hp : e.parent_change_state GstStateChange.READY_TO_PAUSED
        = GstStateChangeReturn.FAILURE <;>
      simp [gst_cedarh264enc_change_state, hardware_setup, hardware_teardown, World.log,
        Hw.h264enc_new, hnew, hp]
  · unfold gst_cedarh264enc_set_property
    split_ifs <;> simp [World.log]
  · unfold gst_cedarh264enc_set_property
    split_ifs <;> simp [World.log, driver_calls, is_driver_call]
  · unfold gst_cedarh264enc_set_property
    split_ifs <;> simp [World.log]

/-- Witness of C10 from `idle_world`: the session is created with qp 30, and
setting the property to 10 afterwards leaves the session at qp 30. -/
theorem ready_to_paused_configuration_snapshot_witness :
    cooperative_env.h264enc_new (encoder_params idle_world.filter) ≠ 0
      ∧ (gst_cedarh264enc_change_state cooperative_env idle_world
            GstStateChange.READY_TO_PAUSED).2.hw.sessions
          = (cooperative_env.h264enc_new (encoder_params idle_world.filter),
              encoder_params idle_world.filter) :: idle_world.hw.sessions
      ∧ (gst_cedarh264enc_set_property
            (gst_cedarh264enc_change_state cooperative_env idle_world
              GstStateChange.READY_TO_PAUSED).2 PROP_QP 10).hw
          = (gst_cedarh264enc_change_state cooperative_env idle_world
              GstStateChange.READY_TO_PAUSED).2.hw :=
  ⟨by decide,
   (ready_to_paused_configuration_snapshot cooperative_env idle_world PROP_QP 10
      (by decide)).2.2.1,
   (ready_to_paused_configuration_snapshot cooperative_env idle_world PROP_QP 10
      (by decide)).2.2.2.1⟩

/-! ## Properties -/

/-- The property system keeps the quantization parameter inside the range of
its parameter spec. -/
theorem g_object_set_property_keeps_qp_range (w : World) (prop_id : Nat) (value : Int)
    (hinv : qp_pspec.minimum ≤ w.filter.pic_init_qp
      ∧ w.filter.pic_init_qp ≤ qp_pspec.maximum) :
    qp_pspec.minimum ≤ (g_object_set_property w prop_id value).filter.pic_init_qp
      ∧ (g_object_set_property w prop_id value).filter.pic_init_qp ≤ qp_pspec.maximum := by
  have hne : PROP_KEYFRAME_INTERVAL ≠ PROP_QP := by decide
  unfold g_object_set_property installed_pspec
  by_cases h1 : prop_id = PROP_QP
  · by_cases hr : qp_pspec.minimum ≤ value ∧ value ≤ qp_pspec.maximum
    · simp only [h1, if_true, hr, gst_cedarh264enc_set_property, and_self]
    · simp only [h1, if_true, hr, if_false]
      exact hinv
  · by_cases h2 : prop_id = PROP_KEYFRAME_INTERVAL
    · subst h2
      by_cases hr : keyint_pspec.minimum ≤ value ∧ value ≤ keyint_pspec.maximum
      · simp only [hne, if_false, if_true, hr, gst_cedarh264enc_set_property, and_self]
        exact hinv
      · simp only [hne, if_false, if_true, hr]
        exact hinv
    · simp only [h1, h2, if_false]
      exact hinv

/-- Any run of property sets through the property system keeps the
quantization parameter inside the range of its parameter spec. -/
theorem apply_property_sets_keeps_qp_range (sets : List (Nat × Int)) (w : World)
    (hinv : qp_pspec.minimum ≤ w.filter.pic_init_qp
      ∧ w.filter.pic_init_qp ≤ qp_pspec.maximum) :
    qp_pspec.minimum ≤ (apply_property_sets w sets).filter.pic_init_qp
      ∧ (apply_property_sets w sets).filter.pic_init_qp ≤ qp_pspec.maximum := by
  induction sets generalizing w with
  | nil => simpa [apply_property_sets] using hinv
  | cons hd rest ih =>
    obtain ⟨prop_id, value⟩ := hd
    simpa [apply_property_sets] using
      ih (g_object_set_property w prop_id value)
        (g_object_set_property_keeps_qp_range w prop_id value hinv)

/-- C9: for every integer `v` in [0,47], the property system hands `v` to
`gst_cedarh264enc_set_property`, a read with `gst_cedarh264enc_get_property`
then yields `v`, and the keyframe interval is left unchanged; a value outside
[0,47] is rejected (the setter is not called, the element is as before); so on
an element whose quantization parameter is in [0,47], as it is after
`gst_cedarh264enc_init`, after any run of property sets and a further set of
any `v`, the value read is in [0,47]. -/
theorem qp_property_roundtrip_and_range (w : World) (sets : List (Nat × Int)) (v old : Int)
    (hinv : qp_pspec.minimum ≤ w.filter.pic_init_qp
      ∧ w.filter.pic_init_qp ≤ qp_pspec.maximum) :
    ((0 ≤ v ∧ v ≤ 47) →
        g_object_set_property w PROP_QP v = gst_cedarh264enc_set_property w PROP_QP v
        ∧ (gst_cedarh264enc_get_property (gst_cedarh264enc_set_property w PROP_QP v)
              PROP_QP old).1 = v
        ∧ (gst_cedarh264enc_get_property (gst_cedarh264enc_set_property w PROP_QP v)
              PROP_KEYFRAME_INTERVAL old).1
            = (gst_cedarh264enc_get_property w PROP_KEYFRAME_INTERVAL old).1
        ∧ (gst_cedarh264enc_set_property w PROP_QP v).filter.keyframe_interval
            = w.filter.keyframe_interval)
      ∧ (¬ (0 ≤ v ∧ v ≤ 47) → g_object_set_property w PROP_QP v = w)
      ∧ (0 ≤ (gst_cedarh264enc_get_property
                (g_object_set_property (apply_property_sets w sets) PROP_QP v) PROP_QP old).1
          ∧ (gst_cedarh264enc_get_property
                (g_object_set_property (apply_property_sets w sets) PROP_QP v) PROP_QP old).1
              ≤ 47)
      ∧ (0 ≤ gst_cedarh264enc_init.pic_init_qp ∧ gst_cedarh264enc_init.pic_init_qp ≤ 47) := by
  refine ⟨?_, ?_, ?_, by decide⟩
  · intro hv
    have hv2 : qp_pspec.minimum ≤ v ∧ v ≤ qp_pspec.maximum := by simpa [qp_pspec] using hv
    refine ⟨?_, ?_, ?_, ?_⟩
    · simp [g_object_set_property, installed_pspec, hv2]
    · simp [gst_cedarh264enc_get_property, gst_cedarh264enc_set_property]
    · simp [gst_cedarh264enc_get_property, gst_cedarh264enc_set_property, PROP_QP,
        PROP_KEYFRAME_INTERVAL]
    · simp [gst_cedarh264enc_set_property]
  · intro hv
    have hv2 : ¬ (qp_pspec.minimum ≤ v ∧ v ≤ qp_pspec.maximum) := by simpa [qp_pspec] using hv
    simp [g_object_set_property, installed_pspec, hv2]
  · have h := g_object_set_property_keeps_qp_range (apply_property_sets w sets) PROP_QP v
      (apply_property_sets_keeps_qp_range sets w hinv)
    simpa [gst_cedarh264enc_get_property, qp_pspec] using h

/-- Witness of C9 on a freshly initialised element: after an out-of-range set
of the quantization parameter and a set of the keyframe interval, setting 12
is delivered and read back, and setting 100 is rejected and the read is still
in [0,47]. -/
theorem qp_property_roundtrip_and_range_witness :
    ((gst_cedarh264enc_get_property (gst_cedarh264enc_set_property unloaded_world PROP_QP 12)
          PROP_QP 0).1 = 12
        ∧ g_object_set_property unloaded_world PROP_QP 12
            = gst_cedarh264enc_set_property unloaded_world PROP_QP 12)
      ∧ g_object_set_property unloaded_world PROP_QP 100 = unloaded_world
      ∧ (0 ≤ (gst_cedarh264enc_get_property
                (g_object_set_property
                  (apply_property_sets unloaded_world [(PROP_QP, 100), (PROP_KEYFRAME_INTERVAL, 7)])
                  PROP_QP 100) PROP_QP 0).1
          ∧ (gst_cedarh264enc_get_property
                (g_object_set_property
                  (apply_property_sets unloaded_world [(PROP_QP, 100), (PROP_KEYFRAME_INTERVAL, 7)])
                  PROP_QP 100) PROP_QP 0).1 ≤ 47) :=
  ⟨⟨((qp_property_roundtrip_and_range unloaded_world [] 12 0 (by decide)).1 (by decide)).2.1,
    ((qp_property_roundtrip_and_range unloaded_world [] 12 0 (by decide)).1 (by decide)).1⟩,
   (qp_property_roundtrip_and_range unloaded_world [] 100 0 (by decide)).2.1 (by decide),
   (qp_property_roundtrip_and_range unloaded_world
      [(PROP_QP, 100), (PROP_KEYFRAME_INTERVAL, 7)] 100 0 (by decide)).2.2.1⟩

end Cedar
